import Mathlib

/-!
# Verification of `github-star-notifier` (`src/notify.py`)

A shallow embedding of the state-tracking / diff / notification logic of
`GitHubStarNotifier` in `src/notify.py`, together with proofs of the
spec's testable properties.

Modelling conventions:
* Python `set` of string keys          ↦ `Finset String`
* Python `dict` returned by the API    ↦ a structure with `Option` fields
  for fields accessed via `.get`
* a fallible network call              ↦ an `Except Unit` value (a raised
  `requests` exception is `Except.error ()`)
* the profile endpoint (`get_user_info`) ↦ an oracle
  `enrich : String → Option UserInfo` (`none` = the call failed and the
  exception was swallowed, returning Python `None`)
* the paginated listing endpoint       ↦ a list of page responses, in the
  order the server would return them for pages 1, 2, ...; pages past the
  end of the list are empty (the API has no more data).
-/

/-- A record built by `get_stargazers` (notify.py lines 78-84): the four
fields copied out of each listing-endpoint record. -/
structure Stargazer where
  login : String
  id : Nat
  avatar_url : String
  html_url : String
  deriving DecidableEq, Repr

/-- The profile-endpoint response consumed by `check_new_stars`
(notify.py lines 238-242): every field is read with `.get`, so each is
optional. -/
structure UserInfo where
  name : Option String
  bio : Option String
  followers : Option Int
  location : Option String
  company : Option String
  deriving DecidableEq, Repr

/-- The `star_info` dict built at notify.py lines 235-244 for a stargazer
that passed the follower filter.  (The `starred_at` wall-clock timestamp
is omitted: it carries no information about the program logic.) -/
structure StarInfo where
  login : String
  html_url : String
  name : Option String
  bio : Option String
  followers : Int
  location : Option String
  company : Option String
  deriving DecidableEq, Repr

/-- The composite membership key `f"{stargazer['login']}_{stargazer['id']}"`
(notify.py line 217). -/
def starKey (s : Stargazer) : String :=
  s.login ++ "_" ++ toString s.id

/-- The diff pass of `check_new_stars` (notify.py lines 216-220): walk the
fetched stargazers in order; any identity whose key is not yet known is
appended to `new_stars` and its key is added to `known_stars` immediately. -/
def detectNew : List Stargazer → Finset String → List Stargazer × Finset String
  | [], known => ([], known)
  | s :: rest, known =>
    if starKey s ∈ known then
      detectNew rest known
    else
      let r := detectNew rest (insert (starKey s) known)
      (s :: r.1, r.2)

/-- The `star_info` dict of notify.py lines 235-244: fields from the
stargazer record and the enrichment response, with
`user_info.get('followers', 0)` defaulting a missing follower count to 0. -/
def mkStarInfo (s : Stargazer) (ui : UserInfo) : StarInfo :=
  { login := s.login
    html_url := s.html_url
    name := ui.name
    bio := ui.bio
    followers := ui.followers.getD 0
    location := ui.location
    company := ui.company }

/-- The notification pass of `check_new_stars` (notify.py lines 225-257):
for each detected-new stargazer, call the profile endpoint; if the call
failed (`None`) skip silently; if `user_info.get('followers', 0)` is below
`min_followers` skip; otherwise build the `star_info` payload and notify. -/
def notifyNew (enrich : String → Option UserInfo) (min_followers : Int) :
    List Stargazer → List StarInfo
  | [] => []
  | s :: rest =>
    match enrich s.login with
    | none => notifyNew enrich min_followers rest
    | some ui =>
      if (ui.followers.getD 0) < min_followers then
        notifyNew enrich min_followers rest
      else
        mkStarInfo s ui :: notifyNew enrich min_followers rest

/-- `check_new_stars` (notify.py lines 209-261) as a function of the check
cycle's inputs: the enrichment oracle, the follower threshold, the result
of `get_stargazers()` and the known-star set.  Returns the list of
notified payloads (or the propagated fetch error) paired with the
known-star set after the cycle.  A fetch error propagates out of line 213
before any mutation, so the known set is returned unchanged in that case. -/
def check_new_stars (enrich : String → Option UserInfo) (min_followers : Int)
    (fetch : Except Unit (List Stargazer)) (known : Finset String) :
    Except Unit (List StarInfo) × Finset String :=
  match fetch with
  | .error e => (.error e, known)
  | .ok stargazers =>
    let r := detectNew stargazers known
    (.ok (notifyNew enrich min_followers r.1), r.2)

/-- The fixed `per_page = 100` of `get_stargazers` (notify.py line 67). -/
def per_page : Nat := 100

/-- The page loop of `get_stargazers` (notify.py lines 69-89): accumulate
records page by page; a failed page (`raise_for_status`) propagates the
error, an empty page stops, a short page (fewer than `per_page` records)
is the last one. -/
def get_stargazers_go (acc : List Stargazer) :
    List (Except Unit (List Stargazer)) → Except Unit (List Stargazer)
  | [] => .ok acc
  | p :: rest =>
    match p with
    | .error e => .error e
    | .ok data =>
      if data = [] then .ok acc
      else if data.length < per_page then .ok (acc ++ data)
      else get_stargazers_go (acc ++ data) rest

/-- `get_stargazers` (notify.py lines 62-91): always starts from page 1
(the head of `pages`) with an empty accumulator — the fetch is
non-restartable and each call re-queries from scratch. -/
def get_stargazers (pages : List (Except Unit (List Stargazer))) :
    Except Unit (List Stargazer) :=
  get_stargazers_go [] pages

/-- Durable storage as seen by `load_state` (notify.py lines 45-51),
i.e. what `json.load` on the state file would produce:
* `missing`  — the file does not exist (`os.path.exists` is false);
* `corrupt`  — the file exists but its content does not parse as a JSON
  object (`json.load` or `data.get` raises);
* `record known_stars` — a parsed JSON object whose optional
  `known_stars` field holds a list of string keys. -/
inductive Storage where
  | missing
  | corrupt
  | record (known_stars : Option (List String))
  deriving DecidableEq, Repr

/-- `load_state` (notify.py lines 45-51): a missing file yields the empty
set; a parsed object yields `set(data.get('known_stars', []))`; an
unparseable file raises out of `json.load` — there is no exception handler
in `load_state`, so the error propagates. -/
def load_state : Storage → Except Unit (Finset String)
  | .missing => .ok ∅
  | .corrupt => .error ()
  | .record none => .ok ∅
  | .record (some keys) => .ok keys.toFinset

/-- `save_state` (notify.py lines 53-60): writes the full set as
`list(self.known_stars)`, an enumeration of the set's elements (each
exactly once; Python's order is unspecified, modelled here by a sorted
enumeration).  (The `last_check` timestamp also written is ignored by
`load_state` and omitted here.) -/
def save_state (known_stars : Finset String) : Storage :=
  .record (some (known_stars.sort (· ≤ ·)))

/-- `__init__` (notify.py line 43): `int(os.getenv('MIN_FOLLOWERS', 0))` —
the environment value if the variable is set, else 0. -/
def initMinFollowers (env : Option Int) : Int := env.getD 0

/-- The effective threshold after `main` (notify.py lines 295-301):
`argparse` gives `--min-followers` the default 0 when the flag is absent,
and `main` then assigns `notifier.min_followers = args.min_followers`
unconditionally, replacing the value `__init__` read from the
environment. -/
def mainMinFollowers (env : Option Int) (cli : Option Int) : Int :=
  let _duringInit := initMinFollowers env
  let argsMinFollowers := cli.getD 0
  argsMinFollowers

/-- The enrichment oracle of the spec's two-stargazer scenario: user `A`
has 5 followers, user `B` has 50. -/
def enrichScenario : String → Option UserInfo := fun l =>
  if l = "A" then some ⟨none, none, some 5, none, none⟩
  else if l = "B" then some ⟨none, none, some 50, none, none⟩
  else none

/-! ## Basic lemmas about the diff pass -/

theorem detectNew_cons_of_mem {s : Stargazer} {K : Finset String}
    (h : starKey s ∈ K) (rest : List Stargazer) :
    detectNew (s :: rest) K = detectNew rest K := by
  simp [detectNew, h]

theorem detectNew_cons_of_not_mem {s : Stargazer} {K : Finset String}
    (h : starKey s ∉ K) (rest : List Stargazer) :
    detectNew (s :: rest) K =
      (s :: (detectNew rest (insert (starKey s) K)).1,
        (detectNew rest (insert (starKey s) K)).2) := by
  simp [detectNew, h]

/-- The known set after the diff pass is the old known set together with
the keys of every fetched stargazer. -/
theorem detectNew_snd (S : List Stargazer) (K : Finset String) :
    (detectNew S K).2 = K ∪ (S.map starKey).toFinset := by
  induction S generalizing K with
  | nil => simp [detectNew]
  | cons s rest ih =>
    by_cases h : starKey s ∈ K
    · rw [detectNew_cons_of_mem h, ih]
      ext k
      simp only [List.map_cons, List.toFinset_cons, Finset.mem_union,
        Finset.mem_insert, List.mem_toFinset]
      constructor
      · rintro (hk | hk)
        · exact Or.inl hk
        · exact Or.inr (Or.inr hk)
      · rintro (hk | hk | hk)
        · exact Or.inl hk
        · exact Or.inl (hk ▸ h)
        · exact Or.inr hk
    · rw [detectNew_cons_of_not_mem h]
      simp only [ih]
      ext k
      simp only [List.map_cons, List.toFinset_cons, Finset.mem_union,
        Finset.mem_insert, List.mem_toFinset]
      tauto

/-- Every stargazer in the new-list came from the fetched list. -/
theorem detectNew_fst_subset {S : List Stargazer} {K : Finset String}
    {t : Stargazer} (h : t ∈ (detectNew S K).1) : t ∈ S := by
  induction S generalizing K with
  | nil => simp [detectNew] at h
  | cons s rest ih =>
    by_cases hs : starKey s ∈ K
    · rw [detectNew_cons_of_mem hs] at h
      exact List.mem_cons_of_mem _ (ih h)
    · rw [detectNew_cons_of_not_mem hs] at h
      rcases List.mem_cons.1 h with h1 | h1
      · exact h1 ▸ List.mem_cons_self _ _
      · exact List.mem_cons_of_mem _ (ih h1)

/-- No stargazer in the new-list was already known. -/
theorem detectNew_fst_not_known {S : List Stargazer} {K : Finset String}
    {t : Stargazer} (h : t ∈ (detectNew S K).1) : starKey t ∉ K := by
  induction S generalizing K with
  | nil => simp [detectNew] at h
  | cons s rest ih =>
    by_cases hs : starKey s ∈ K
    · rw [detectNew_cons_of_mem hs] at h
      exact ih h
    · rw [detectNew_cons_of_not_mem hs] at h
      rcases List.mem_cons.1 h with h1 | h1
      · exact h1 ▸ hs
      · intro hK
        exact ih h1 (Finset.mem_insert_of_mem hK)

/-- Every fetched stargazer's key is known after the diff pass. -/
theorem mem_detectNew_snd_of_mem {S : List Stargazer} {K : Finset String}
    {s : Stargazer} (h : s ∈ S) : starKey s ∈ (detectNew S K).2 := by
  rw [detectNew_snd]
  exact Finset.mem_union_right _ (List.mem_toFinset.2 (List.mem_map_of_mem _ h))

/-- The diff pass never removes a known key. -/
theorem detectNew_mono {K : Finset String} {k : String}
    (h : k ∈ K) (S : List Stargazer) : k ∈ (detectNew S K).2 := by
  rw [detectNew_snd]
  exact Finset.mem_union_left _ h

/-! ## Basic lemmas about the notification pass -/

theorem notifyNew_cons_none {enrich : String → Option UserInfo} {m : Int}
    {s : Stargazer} (h : enrich s.login = none) (rest : List Stargazer) :
    notifyNew enrich m (s :: rest) = notifyNew enrich m rest := by
  simp [notifyNew, h]

theorem notifyNew_cons_some {enrich : String → Option UserInfo} {m : Int}
    {s : Stargazer} {ui : UserInfo} (h : enrich s.login = some ui)
    (rest : List Stargazer) :
    notifyNew enrich m (s :: rest) =
      if (ui.followers.getD 0) < m then notifyNew enrich m rest
      else mkStarInfo s ui :: notifyNew enrich m rest := by
  simp only [notifyNew, h]

/-- A payload is in the notification list exactly when it was built from a
detected stargazer whose enrichment succeeded and passed the follower
filter. -/
theorem mem_notifyNew_iff {enrich : String → Option UserInfo} {m : Int}
    {L : List Stargazer} {info : StarInfo} :
    info ∈ notifyNew enrich m L ↔
      ∃ t ∈ L, ∃ ui, enrich t.login = some ui ∧
        ¬((ui.followers.getD 0) < m) ∧ info = mkStarInfo t ui := by
  induction L with
  | nil => simp [notifyNew]
  | cons s rest ih =>
    rcases he : enrich s.login with _ | ui
    · rw [notifyNew_cons_none he, ih]
      constructor
      · rintro ⟨t, ht, ui, hui, hlt, heq⟩
        exact ⟨t, List.mem_cons_of_mem _ ht, ui, hui, hlt, heq⟩
      · rintro ⟨t, ht, ui, hui, hlt, heq⟩
        rcases List.mem_cons.1 ht with h1 | h1
        · rw [h1] at hui
          rw [he] at hui
          exact absurd hui (by simp)
        · exact ⟨t, h1, ui, hui, hlt, heq⟩
    · rw [notifyNew_cons_some he]
      by_cases hf : (ui.followers.getD 0) < m
      · rw [if_pos hf, ih]
        constructor
        · rintro ⟨t, ht, ui2, hui, hlt, heq⟩
          exact ⟨t, List.mem_cons_of_mem _ ht, ui2, hui, hlt, heq⟩
        · rintro ⟨t, ht, ui2, hui, hlt, heq⟩
          rcases List.mem_cons.1 ht with h1 | h1
          · rw [h1, he] at hui
            rw [Option.some_inj.1 hui] at hf
            exact absurd hf hlt
          · exact ⟨t, h1, ui2, hui, hlt, heq⟩
      · rw [if_neg hf]
        constructor
        · intro h
          rcases List.mem_cons.1 h with h1 | h1
          · exact ⟨s, List.mem_cons_self _ _, ui, he, hf, h1⟩
          · rcases ih.1 h1 with ⟨t, ht, ui2, hui, hlt, heq⟩
            exact ⟨t, List.mem_cons_of_mem _ ht, ui2, hui, hlt, heq⟩
        · rintro ⟨t, ht, ui2, hui, hlt, heq⟩
          rcases List.mem_cons.1 ht with h1 | h1
          · rw [h1, he] at hui
            rw [heq, h1, Option.some_inj.1 hui]
            exact List.mem_cons_self _ _
          · exact List.mem_cons_of_mem _ (ih.2 ⟨t, h1, ui2, hui, hlt, heq⟩)

/-! ## Basic lemmas about the fetcher -/

/-- If every page before some page is full (so the loop keeps going) and
that page fails, the whole fetch fails: nothing fetched so far is
returned. -/
theorem get_stargazers_go_error {pre : List (Except Unit (List Stargazer))}
    (hpre : ∀ p ∈ pre, ∃ d, p = .ok d ∧ per_page ≤ d.length)
    (acc : List Stargazer) (rest : List (Except Unit (List Stargazer))) :
    get_stargazers_go acc (pre ++ Except.error () :: rest) = .error () := by
  induction pre generalizing acc with
  | nil => simp [get_stargazers_go]
  | cons p pre' ih =>
    rcases hpre p (List.mem_cons_self _ _) with ⟨d, hp, hd⟩
    subst hp
    have hne : d ≠ [] := by
      intro h
      rw [h] at hd
      simp [per_page] at hd
    have hlen : ¬(d.length < per_page) := not_lt.2 hd
    simp only [List.cons_append, get_stargazers_go, if_neg hne, if_neg hlen]
    exact ih (fun p hp => hpre p (List.mem_cons_of_mem _ hp)) (acc ++ d)

/-! ## Claim theorems -/

/-- C1, counterexample: with an empty known-set, a fetch returning only the
stargazer `A` (id 1), and an enrichment oracle that fails on every call,
the key `A_1` IS in the known-set after the cycle (the claim requires it to
be absent), and on the next cycle with the same fetch the new-list is
empty (the claim requires `A` to reappear in it). -/
theorem enrich_failure_cex :
    starKey ⟨"A", 1, "", ""⟩ ∈
      (check_new_stars (fun _ => none) 0 (Except.ok [⟨"A", 1, "", ""⟩]) ∅).2 ∧
    (detectNew [⟨"A", 1, "", ""⟩]
      (check_new_stars (fun _ => none) 0 (Except.ok [⟨"A", 1, "", ""⟩]) ∅).2).1 = [] := by
  decide

/-- C1, amended: a fetched identity whose profile-enrichment call fails is
nevertheless added to the known-set during the diff pass of the cycle, no
notification payload is built for its login, and it never appears in the
new-list of any later cycle (whose known-set can only have grown) — the
notification is permanently lost. -/
theorem enrich_failure_marked_known (enrich : String → Option UserInfo)
    (m : Int) (S : List Stargazer) (K : Finset String) (s : Stargazer)
    (hs : s ∈ S) (henrich : enrich s.login = none) :
    starKey s ∈ (check_new_stars enrich m (Except.ok S) K).2 ∧
    (∀ info ∈ notifyNew enrich m (detectNew S K).1, info.login ≠ s.login) ∧
    (∀ K2 : Finset String, (check_new_stars enrich m (Except.ok S) K).2 ⊆ K2 →
      ∀ S2 : List Stargazer, s ∉ (detectNew S2 K2).1) := by
  refine ⟨mem_detectNew_snd_of_mem hs, ?_, ?_⟩
  · intro info hinfo heq
    rcases mem_notifyNew_iff.1 hinfo with ⟨t, _, ui2, hui2, _, hinfoeq⟩
    have hlog : t.login = s.login := by rw [hinfoeq] at heq; exact heq
    rw [hlog, henrich] at hui2
    exact Option.noConfusion hui2
  · intro K2 hsub S2 hmem
    exact detectNew_fst_not_known hmem (hsub (mem_detectNew_snd_of_mem hs))

/-- C1, witness for the amended theorem at the counterexample input. -/
theorem enrich_failure_marked_known_witness :
    starKey ⟨"A", 1, "", ""⟩ ∈
      (check_new_stars (fun _ => none) 0 (Except.ok [⟨"A", 1, "", ""⟩]) ∅).2 ∧
    (∀ info ∈ notifyNew (fun _ => none) 0 (detectNew [⟨"A", 1, "", ""⟩] ∅).1,
      info.login ≠ "A") ∧
    (∀ K2 : Finset String,
      (check_new_stars (fun _ => none) 0 (Except.ok [⟨"A", 1, "", ""⟩]) ∅).2 ⊆ K2 →
      ∀ S2 : List Stargazer, (⟨"A", 1, "", ""⟩ : Stargazer) ∉ (detectNew S2 K2).1) :=
  enrich_failure_marked_known (fun _ => none) 0 [⟨"A", 1, "", ""⟩] ∅
    ⟨"A", 1, "", ""⟩ (by decide) rfl

/-- C2 (confirmed): a stargazer detected as new whose profile's follower
count is below the threshold is added to the known-set in that cycle (a
set holds each key exactly once), no notification payload is built for
its login, and it never appears in the new-list of any later cycle (whose
known-set can only have grown). -/
theorem filtered_identity_marked_known (enrich : String → Option UserInfo)
    (m : Int) (S : List Stargazer) (K : Finset String) (s : Stargazer)
    (ui : UserInfo) (_hnew : starKey s ∉ K) (hs : s ∈ S)
    (hui : enrich s.login = some ui) (hf : ui.followers.getD 0 < m) :
    starKey s ∈ (check_new_stars enrich m (Except.ok S) K).2 ∧
    (∀ info ∈ notifyNew enrich m (detectNew S K).1, info.login ≠ s.login) ∧
    (∀ K2 : Finset String, (check_new_stars enrich m (Except.ok S) K).2 ⊆ K2 →
      ∀ S2 : List Stargazer, s ∉ (detectNew S2 K2).1) := by
  refine ⟨mem_detectNew_snd_of_mem hs, ?_, ?_⟩
  · intro info hinfo heq
    rcases mem_notifyNew_iff.1 hinfo with ⟨t, _, ui2, hui2, hlt, hinfoeq⟩
    have hlog : t.login = s.login := by rw [hinfoeq] at heq; exact heq
    rw [hlog, hui] at hui2
    exact hlt (Option.some_inj.1 hui2 ▸ hf)
  · intro K2 hsub S2 hmem
    exact detectNew_fst_not_known hmem (hsub (mem_detectNew_snd_of_mem hs))

/-- C2, witness: user `A` with 5 followers against threshold 10. -/
theorem filtered_identity_marked_known_witness :
    starKey ⟨"A", 1, "", ""⟩ ∈
      (check_new_stars (fun _ => some ⟨none, none, some 5, none, none⟩) 10
        (Except.ok [⟨"A", 1, "", ""⟩]) ∅).2 ∧
    (∀ info ∈ notifyNew (fun _ => some ⟨none, none, some 5, none, none⟩) 10
        (detectNew [⟨"A", 1, "", ""⟩] ∅).1, info.login ≠ "A") ∧
    (∀ K2 : Finset String,
      (check_new_stars (fun _ => some ⟨none, none, some 5, none, none⟩) 10
        (Except.ok [⟨"A", 1, "", ""⟩]) ∅).2 ⊆ K2 →
      ∀ S2 : List Stargazer, (⟨"A", 1, "", ""⟩ : Stargazer) ∉ (detectNew S2 K2).1) :=
  filtered_identity_marked_known (fun _ => some ⟨none, none, some 5, none, none⟩)
    10 [⟨"A", 1, "", ""⟩] ∅ ⟨"A", 1, "", ""⟩ ⟨none, none, some 5, none, none⟩
    (by decide) (by decide) rfl (by decide)

/-- C3 (confirmed): if a page of the listing fetch fails after a run of
full pages, the whole fetch errors, the check cycle returns that error
with the known-set exactly as it was before the cycle (all-or-nothing),
and any later cycle behaves exactly as if run from the pre-cycle state —
the retry starts fully from scratch. -/
theorem fetch_error_aborts_cycle (enrich : String → Option UserInfo) (m : Int)
    (K : Finset String) (pre rest : List (Except Unit (List Stargazer)))
    (hpre : ∀ p ∈ pre, ∃ d, p = Except.ok d ∧ per_page ≤ d.length) :
    get_stargazers (pre ++ Except.error () :: rest) = Except.error () ∧
    check_new_stars enrich m (get_stargazers (pre ++ Except.error () :: rest)) K =
      (Except.error (), K) ∧
    ∀ fetch2 : Except Unit (List Stargazer),
      check_new_stars enrich m fetch2
          (check_new_stars enrich m
            (get_stargazers (pre ++ Except.error () :: rest)) K).2 =
        check_new_stars enrich m fetch2 K := by
  have h1 : get_stargazers (pre ++ Except.error () :: rest) = Except.error () :=
    get_stargazers_go_error hpre [] rest
  refine ⟨h1, ?_, ?_⟩
  · rw [h1]
    rfl
  · intro fetch2
    rw [h1]
    rfl

/-- C3, witness: page 1 full (100 records), page 2 a transport error. -/
theorem fetch_error_aborts_cycle_witness :
    get_stargazers ([Except.ok (List.replicate per_page ⟨"u", 1, "", ""⟩)] ++
        Except.error () :: [Except.ok []]) = Except.error () ∧
    check_new_stars (fun _ => none) 0
        (get_stargazers ([Except.ok (List.replicate per_page ⟨"u", 1, "", ""⟩)] ++
          Except.error () :: [Except.ok []])) {"A_1"} = (Except.error (), {"A_1"}) ∧
    ∀ fetch2 : Except Unit (List Stargazer),
      check_new_stars (fun _ => none) 0 fetch2
          (check_new_stars (fun _ => none) 0
            (get_stargazers ([Except.ok (List.replicate per_page ⟨"u", 1, "", ""⟩)] ++
              Except.error () :: [Except.ok []])) {"A_1"}).2 =
        check_new_stars (fun _ => none) 0 fetch2 {"A_1"} :=
  fetch_error_aborts_cycle (fun _ => none) 0 {"A_1"}
    [Except.ok (List.replicate per_page ⟨"u", 1, "", ""⟩)] [Except.ok []]
    (by
      intro p hp
      simp only [List.mem_singleton] at hp
      subst hp
      exact ⟨_, rfl, by simp⟩)

/-- C4 (confirmed): running the diff on a fetched list `S` against the
known-set produced by a first diff on the same `S` yields an empty
new-list. -/
theorem diff_twice_empty (S : List Stargazer) (K : Finset String) :
    (detectNew S (detectNew S K).2).1 = [] := by
  refine List.eq_nil_iff_forall_not_mem.2 (fun t ht => ?_)
  exact detectNew_fst_not_known ht
    (mem_detectNew_snd_of_mem (detectNew_fst_subset ht))

/-- C5 (confirmed): with an empty known-set, fetch
`[A(id 1, 5 followers), B(id 2, 50 followers)]` and threshold 10, the
cycle notifies exactly `B` and the known-set afterwards is exactly
`{A_1, B_2}`; membership keys are the composite `"{login}_{id}"` strings. -/
theorem scenario_two_stars :
    (check_new_stars enrichScenario 10
      (Except.ok [⟨"A", 1, "", ""⟩, ⟨"B", 2, "", ""⟩]) ∅).1 =
      Except.ok [⟨"B", "", none, none, 50, none, none⟩] ∧
    (check_new_stars enrichScenario 10
      (Except.ok [⟨"A", 1, "", ""⟩, ⟨"B", 2, "", ""⟩]) ∅).2 =
      {"A_1", "B_2"} ∧
    starKey ⟨"A", 1, "", ""⟩ = "A_1" ∧ starKey ⟨"B", 2, "", ""⟩ = "B_2" :=
  ⟨rfl, by decide, rfl, rfl⟩

/-- C6, counterexample: on corrupt (unparseable) storage, `load_state`
does not return the empty known-set — the `json.load` error propagates
and the process fails (there is no handler in `load_state` or around the
constructor's call to it). -/
theorem load_corrupt_cex :
    load_state Storage.corrupt = Except.error () ∧
    load_state Storage.corrupt ≠ Except.ok (∅ : Finset String) :=
  ⟨rfl, fun h => Except.noConfusion h⟩

/-- C6, amended: a missing state file, or a parsed record without the
`known_stars` field, yields the empty known-set (first-run semantics);
corrupt storage instead raises, and the error propagates out of
`load_state`. -/
theorem load_missing_empty :
    load_state Storage.missing = Except.ok ∅ ∧
    load_state (Storage.record none) = Except.ok ∅ ∧
    load_state Storage.corrupt = Except.error () :=
  ⟨rfl, rfl, rfl⟩

/-- C7 (confirmed): saving a known-set and loading it back yields the same
set — order-independent, nothing dropped; and the serialized list holds
each entry exactly once (no duplicates). -/
theorem save_load_roundtrip (known : Finset String) :
    load_state (save_state known) = Except.ok known ∧
    (known.sort (· ≤ ·)).Nodup := by
  constructor
  · show Except.ok (known.sort (· ≤ ·)).toFinset = Except.ok known
    rw [Finset.sort_toFinset]
  · exact known.sort_nodup _

/-- C8 (confirmed): the known-set grows monotonically — every key known
before a check cycle is still known after it, whatever the fetch result
(including a fetch error). -/
theorem known_set_monotone (enrich : String → Option UserInfo) (m : Int)
    (fetch : Except Unit (List Stargazer)) (K : Finset String) (k : String)
    (h : k ∈ K) : k ∈ (check_new_stars enrich m fetch K).2 := by
  cases fetch with
  | error e => exact h
  | ok S => exact detectNew_mono h S

/-- C8, witness: the key `A_1` survives a cycle that fetches only `B`. -/
theorem known_set_monotone_witness :
    "A_1" ∈ (check_new_stars (fun _ => none) 0
      (Except.ok [⟨"B", 2, "", ""⟩]) {"A_1"}).2 :=
  known_set_monotone (fun _ => none) 0 (Except.ok [⟨"B", 2, "", ""⟩])
    {"A_1"} "A_1" (by decide)

/-- C9, counterexample: with `MIN_FOLLOWERS=10` in the environment and no
`--min-followers` flag on the command line, the effective threshold after
`main` is 0, not the environment-configured 10 — `main` unconditionally
overwrites the constructor's value with the argparse default. -/
theorem env_threshold_cex :
    mainMinFollowers (some 10) none = 0 ∧
    mainMinFollowers (some 10) none ≠ initMinFollowers (some 10) := by
  decide

/-- C9, amended: the constructor reads the threshold from the environment
with default 0, but `main` always replaces it by the command-line value
(default 0), so the threshold actually used for filtering is the
command-line one and is independent of the environment. -/
theorem effective_min_followers (env env2 cli : Option Int) :
    initMinFollowers env = env.getD 0 ∧
    mainMinFollowers env cli = cli.getD 0 ∧
    mainMinFollowers env cli = mainMinFollowers env2 cli :=
  ⟨rfl, rfl, rfl⟩

/-- C10 (confirmed): a detected-new stargazer whose enrichment succeeds
but whose profile has no follower count is treated as having 0 followers:
a notification for its login exists exactly when the threshold is at most
0, and every notification payload for that login reports 0 followers. -/
theorem missing_followers_default_zero (enrich : String → Option UserInfo)
    (m : Int) (S : List Stargazer) (K : Finset String) (s : Stargazer)
    (ui : UserInfo) (hs : s ∈ (detectNew S K).1)
    (hui : enrich s.login = some ui) (hf : ui.followers = none) :
    (check_new_stars enrich m (Except.ok S) K).1 =
      Except.ok (notifyNew enrich m (detectNew S K).1) ∧
    ((∃ info ∈ notifyNew enrich m (detectNew S K).1, info.login = s.login) ↔
      m ≤ 0) ∧
    (∀ info ∈ notifyNew enrich m (detectNew S K).1,
      info.login = s.login → info.followers = 0) := by
  refine ⟨rfl, ⟨?_, ?_⟩, ?_⟩
  · rintro ⟨info, hinfo, heq⟩
    rcases mem_notifyNew_iff.1 hinfo with ⟨t, _, ui2, hui2, hlt, hinfoeq⟩
    have hlog : t.login = s.login := by rw [hinfoeq] at heq; exact heq
    rw [hlog, hui] at hui2
    rw [← Option.some_inj.1 hui2, hf] at hlt
    simp only [Option.getD_none] at hlt
    exact not_lt.1 hlt
  · intro hm
    refine ⟨mkStarInfo s ui, mem_notifyNew_iff.2 ⟨s, hs, ui, hui, ?_, rfl⟩, rfl⟩
    rw [hf]
    simp only [Option.getD_none]
    exact not_lt.2 hm
  · intro info hinfo heq
    rcases mem_notifyNew_iff.1 hinfo with ⟨t, _, ui2, hui2, _, hinfoeq⟩
    have hlog : t.login = s.login := by rw [hinfoeq] at heq; exact heq
    rw [hlog, hui] at hui2
    rw [hinfoeq]
    show ui2.followers.getD 0 = 0
    rw [← Option.some_inj.1 hui2, hf]
    rfl

/-- C10, witness: user `A` with an all-empty profile against threshold 0. -/
theorem missing_followers_default_zero_witness :
    (check_new_stars (fun _ => some ⟨none, none, none, none, none⟩) 0
      (Except.ok [⟨"A", 1, "", ""⟩]) ∅).1 =
      Except.ok (notifyNew (fun _ => some ⟨none, none, none, none, none⟩) 0
        (detectNew [⟨"A", 1, "", ""⟩] ∅).1) ∧
    ((∃ info ∈ notifyNew (fun _ => some ⟨none, none, none, none, none⟩) 0
        (detectNew [⟨"A", 1, "", ""⟩] ∅).1, info.login = "A") ↔ (0 : Int) ≤ 0) ∧
    (∀ info ∈ notifyNew (fun _ => some ⟨none, none, none, none, none⟩) 0
        (detectNew [⟨"A", 1, "", ""⟩] ∅).1,
      info.login = "A" → info.followers = 0) :=
  missing_followers_default_zero (fun _ => some ⟨none, none, none, none, none⟩)
    0 [⟨"A", 1, "", ""⟩] ∅ ⟨"A", 1, "", ""⟩ ⟨none, none, none, none, none⟩
    (by decide) rfl rfl
